import Mathlib

/-!
Verification development for the HelioStat solar tilt analysis engine
(`main_solar_analysis.py`).

The engine is embedded shallowly:

* a pandas row of the prepared dataframe becomes an `HourlyRecord`;
* the prepared dataframe (`self.data`, possibly `None` after a failed
  load) becomes an `Option (List HourlyRecord)`;
* machine floats become exact rationals `ℚ`;
* the transcendental primitives `np.cos` and `np.radians` are abstracted
  into a `GeoModel` (a cosine function, and the factor `π/180` used by
  `np.radians`), since none of the verified properties depend on the
  numeric values of the trigonometric functions — only on the structure
  of the computation.  All definitions stay computable this way.
-/

namespace HelioStat

/-- One hourly observation of the prepared dataset: month number, the
measured diffuse (`DHI`) and direct (`DNI`) irradiance, their clear-sky
variants, and the per-hour declination angle already converted to
radians by the loader (`Declination Angle Rad`). -/
structure HourlyRecord where
  month : Int
  dhi : ℚ
  dni : ℚ
  clearskyDhi : ℚ
  clearskyDni : ℚ
  declinationRad : ℚ
deriving DecidableEq

/-- Abstraction of the transcendental primitives used by the engine:
`cosFn` stands for `np.cos`, and `radFactor` for the constant `π/180`
with which `np.radians` multiplies its argument. -/
structure GeoModel where
  cosFn : ℚ → ℚ
  radFactor : ℚ

/-- Model of `np.radians`: degrees to radians. -/
def GeoModel.radians (g : GeoModel) (x : ℚ) : ℚ := x * g.radFactor

/-- Constant `LATITUDE_DEGREES = 29.651949` (Gainesville, FL). -/
def LATITUDE_DEGREES : ℚ := 29.651949

/-- Constant `LATITUDE_RADIANS = np.radians(LATITUDE_DEGREES)`. -/
def LATITUDE_RADIANS (g : GeoModel) : ℚ := g.radians LATITUDE_DEGREES

/-- Constant `EARTH_AXIAL_TILT = 23.45`. -/
def EARTH_AXIAL_TILT : ℚ := 23.45

/-- Constant `WINTER_MONTHS = [10, 11, 12, 1, 2, 3]`. -/
def WINTER_MONTHS : List Int := [10, 11, 12, 1, 2, 3]

/-- Constant `SUMMER_MONTHS = [4, 5, 6, 7, 8, 9]`. -/
def SUMMER_MONTHS : List Int := [4, 5, 6, 7, 8, 9]

/-- The state of a `SolarAnalysis` instance: `self.data`, which is
`none` when loading failed and otherwise the list of prepared rows. -/
structure SolarAnalysis where
  data : Option (List HourlyRecord)

/-- Column selection `dhi_col = 'DHI' if sky_condition == 'cloudy' else
'Clearsky DHI'`, read back from a record. -/
def recDhi (sky_condition : String) (r : HourlyRecord) : ℚ :=
  if sky_condition = "cloudy" then r.dhi else r.clearskyDhi

/-- Column selection `dni_col = 'DNI' if sky_condition == 'cloudy' else
'Clearsky DNI'`, read back from a record. -/
def recDni (sky_condition : String) (r : HourlyRecord) : ℚ :=
  if sky_condition = "cloudy" then r.dni else r.clearskyDni

/-- Per-record summand of the vectorised computation in
`calculate_ghi_for_tilt`: `theta = LATITUDE_RADIANS - panel_tilt_rad -
declination_rad`, `dni_contribution = cos(theta) * dni` when
`cos(theta) > 0` else `0`, and `ghi_output = dhi + dni_contribution`. -/
def ghiTerm (g : GeoModel) (panel_tilt_rad : ℚ) (sky_condition : String)
    (r : HourlyRecord) : ℚ :=
  let cos_theta := g.cosFn (LATITUDE_RADIANS g - panel_tilt_rad - r.declinationRad)
  recDhi sky_condition r +
    (if 0 < cos_theta then cos_theta * recDni sky_condition r else 0)

/-- Model of `SolarAnalysis.calculate_ghi_for_tilt`: returns `0.0` when `self.data`
is `None`; otherwise filters the data to the requested months, drops the
rows whose selected diffuse and direct columns are both exactly zero,
returns `0.0` if nothing remains, and otherwise sums
`dhi + dni_contribution` over the remaining rows. -/
def SolarAnalysis.calculate_ghi_for_tilt (g : GeoModel) (self : SolarAnalysis)
    (tilt_degrees : ℚ) (months : List Int) (sky_condition : String) : ℚ :=
  match self.data with
  | none => 0
  | some data =>
    let df_period := data.filter (fun r => months.contains r.month)
    let df_period2 := df_period.filter (fun r =>
      !(recDhi sky_condition r == 0 && recDni sky_condition r == 0))
    if df_period2.isEmpty then 0
    else
      let panel_tilt_rad := g.radians tilt_degrees
      (df_period2.map (ghiTerm g panel_tilt_rad sky_condition)).sum

/-- One step of the search loop of `find_optimal_tilt`: the accumulator
is `(best_tilt, max_ghi)` and is replaced exactly when `ghi > max_ghi`. -/
def optStep (f : Nat → ℚ) (acc : Int × ℚ) (tilt : Nat) : Int × ℚ :=
  if acc.2 < f tilt then ((tilt : Int), f tilt) else acc

/-- The search loop of `find_optimal_tilt` over tilts `0, 1, ..., n-1`,
started from the sentinel accumulator `max_ghi = -1`, `best_tilt = -1`. -/
def optFold (f : Nat → ℚ) (n : Nat) : Int × ℚ :=
  (List.range n).foldl (optStep f) ((-1 : Int), (-1 : ℚ))

/-- Model of `SolarAnalysis.find_optimal_tilt`: exhaustive scan of the integer
tilts `range(0, 91)` keeping `(best_tilt, max_ghi)`, updated only on
strict improvement `ghi > max_ghi`, initialised to `(-1, -1)`. -/
def SolarAnalysis.find_optimal_tilt (g : GeoModel) (self : SolarAnalysis)
    (months : List Int) (sky_condition : String) : Int × ℚ :=
  optFold (fun tilt => self.calculate_ghi_for_tilt g (tilt : ℚ) months sky_condition) 91

/-- Model of `list(range(1, 13))`: all twelve calendar months. -/
def allMonths : List Int := (List.range' 1 12).map (fun (n : Nat) => (n : Int))

/-- Model of `SolarAnalysis.analyze_arrangement_1`: fixed tilt 0 all year. -/
def SolarAnalysis.analyze_arrangement_1 (g : GeoModel) (self : SolarAnalysis)
    (sky_condition : String) : ℚ :=
  self.calculate_ghi_for_tilt g 0 allMonths sky_condition

/-- Model of `SolarAnalysis.analyze_arrangement_2`: fixed tilt at latitude all year. -/
def SolarAnalysis.analyze_arrangement_2 (g : GeoModel) (self : SolarAnalysis)
    (sky_condition : String) : ℚ :=
  self.calculate_ghi_for_tilt g LATITUDE_DEGREES allMonths sky_condition

/-- Model of `SolarAnalysis.analyze_arrangement_3`: two fixed tilts, latitude minus
half the axial tilt for the summer months and latitude plus half the
axial tilt for the winter months. -/
def SolarAnalysis.analyze_arrangement_3 (g : GeoModel) (self : SolarAnalysis)
    (sky_condition : String) : ℚ :=
  let adjustment := EARTH_AXIAL_TILT / 2
  let summer_tilt := LATITUDE_DEGREES - adjustment
  let winter_tilt := LATITUDE_DEGREES + adjustment
  self.calculate_ghi_for_tilt g summer_tilt SUMMER_MONTHS sky_condition +
    self.calculate_ghi_for_tilt g winter_tilt WINTER_MONTHS sky_condition

/-- Model of `SolarAnalysis.analyze_arrangement_4`: sum over the twelve calendar
months of the maximal GHI found by `find_optimal_tilt` for that month. -/
def SolarAnalysis.analyze_arrangement_4 (g : GeoModel) (self : SolarAnalysis)
    (sky_condition : String) : ℚ :=
  (List.range' 1 12).foldl
    (fun total_ghi (month : Nat) =>
      total_ghi + (self.find_optimal_tilt g [(month : Int)] sky_condition).2)
    0

/-- Model of `SolarAnalysis.analyze_arrangement_5`: optimal tilt for the summer
months plus optimal tilt for the winter months. -/
def SolarAnalysis.analyze_arrangement_5 (g : GeoModel) (self : SolarAnalysis)
    (sky_condition : String) : ℚ :=
  (self.find_optimal_tilt g SUMMER_MONTHS sky_condition).2 +
    (self.find_optimal_tilt g WINTER_MONTHS sky_condition).2

/-- Model of `SolarAnalysis.analyze_arrangement_6`: maximal GHI of a single tilt
optimised over all twelve months combined. -/
def SolarAnalysis.analyze_arrangement_6 (g : GeoModel) (self : SolarAnalysis)
    (sky_condition : String) : ℚ :=
  (self.find_optimal_tilt g allMonths sky_condition).2

/-- The `month_names` dictionary of `analyze_sliding_window`. -/
def month_names : Int → String
  | 1 => "Jan" | 2 => "Feb" | 3 => "Mar" | 4 => "Apr" | 5 => "May" | 6 => "Jun"
  | 7 => "Jul" | 8 => "Aug" | 9 => "Sep" | 10 => "Oct" | 11 => "Nov" | 12 => "Dec"
  | _ => ""

/-- Model of `SolarAnalysis.analyze_sliding_window`: for each start month
`i = 1..12`, the window months are `[(m - 1) % 12 + 1 for m in
range(i, i + window_size)]`, the label is built from the first and last
window month's short name, and the row records the optimal tilt found
for the window.  The returned dataframe is modelled as the ordered list
of `(window label, best tilt)` rows. -/
def SolarAnalysis.analyze_sliding_window (g : GeoModel) (self : SolarAnalysis)
    (window_size : Nat) (sky_condition : String) : List (String × Int) :=
  (List.range' 1 12).map (fun i =>
    let months_in_window : List Int :=
      (List.range' i window_size).map (fun m => (((m - 1) % 12 + 1 : Nat) : Int))
    let start_month_name := month_names (months_in_window.headD 0)
    let end_month_name := month_names (months_in_window.getLastD 0)
    let window_name := start_month_name ++ "-" ++ end_month_name
    (window_name, (self.find_optimal_tilt g months_in_window sky_condition).1))

/-- Modelled from the spec: the variant of `computeGHI` that omits the
pre-summation exclusion of records whose selected diffuse and direct
fields are both exactly zero, and instead sums the per-record output
over all month-filtered records unconditionally (spec §4.1). -/
def calculate_ghi_unconditional (g : GeoModel) (data : List HourlyRecord)
    (tilt_degrees : ℚ) (months : List Int) (sky : String) : ℚ :=
  ((data.filter (fun r => months.contains r.month)).map
    (fun r =>
      recDhi sky r +
        (if 0 < g.cosFn (LATITUDE_RADIANS g - g.radians tilt_degrees - r.declinationRad)
         then g.cosFn (LATITUDE_RADIANS g - g.radians tilt_degrees - r.declinationRad) *
            recDni sky r
         else 0))).sum

/-- Trigonometric context whose abstract cosine is constantly zero: with
it no record ever has a positive `cos_theta`, so the direct contribution
vanishes and the GHI of a period is just the sum of its diffuse column. -/
def gZero : GeoModel := ⟨fun _ => 0, 0⟩

/-- A loaded dataset holding a single January record whose measured
diffuse irradiance is `-5` (its other irradiance fields are zero). -/
def analysisNeg5 : SolarAnalysis := ⟨some [⟨1, -5, 0, -5, 0, 0⟩]⟩

/-- A loaded dataset holding a single January record whose measured
diffuse irradiance is `-3` (its other irradiance fields are zero). -/
def analysisNeg3 : SolarAnalysis := ⟨some [⟨1, -3, 0, -3, 0, 0⟩]⟩

/-- A loaded dataset with one January record and one February record,
each carrying diffuse irradiance `-2` (other irradiance fields zero). -/
def analysisNeg4 : SolarAnalysis :=
  ⟨some [⟨1, -2, 0, -2, 0, 0⟩, ⟨2, -2, 0, -2, 0, 0⟩]⟩

/-- The window-month formula of the claim: window `i` of size
`window_size` covers the months `((i + k - 1) mod 12) + 1` for
`k = 0 .. window_size - 1`, wrapping from December back to January. -/
def windowMonths (i window_size : Nat) : List Int :=
  (List.range window_size).map (fun k => (((i + k - 1) % 12 + 1 : Nat) : Int))

theorem sum_map_filter_of_vanish {α : Type} (p : α → Bool) (f : α → ℚ) :
    ∀ l : List α, (∀ a ∈ l, p a = false → f a = 0) →
      ((l.filter p).map f).sum = (l.map f).sum := by
  intro l
  induction l with
  | nil => intro _; rfl
  | cons a l ih =>
    intro h
    have ih' := ih (fun b hb hpb => h b (List.mem_cons_of_mem a hb) hpb)
    by_cases ha : p a
    · simp only [List.filter_cons, ha, if_pos, List.map_cons, List.sum_cons, ih']
    · have ha' : p a = false := by simpa using ha
      have hz : f a = 0 := h a (List.mem_cons_self a l) ha'
      simp only [List.filter_cons, ha', List.map_cons, List.sum_cons, hz, zero_add,
        Bool.false_eq_true, ite_false, ih']

theorem ite_isEmpty_sum (l : List HourlyRecord) (f : HourlyRecord → ℚ) :
    (if l.isEmpty then (0 : ℚ) else (l.map f).sum) = (l.map f).sum := by
  cases l with
  | nil => simp
  | cons a l => simp [List.isEmpty]

theorem ghiTerm_eq_zero_of_dark (g : GeoModel) (tr : ℚ) (sky : String)
    (r : HourlyRecord) (h1 : recDhi sky r = 0) (h2 : recDni sky r = 0) :
    ghiTerm g tr sky r = 0 := by
  simp [ghiTerm, h1, h2]

theorem calculate_ghi_eq_sum (g : GeoModel) (data : List HourlyRecord)
    (tilt_degrees : ℚ) (months : List Int) (sky : String) :
    SolarAnalysis.calculate_ghi_for_tilt g ⟨some data⟩ tilt_degrees months sky =
      ((data.filter (fun r => months.contains r.month)).map
        (ghiTerm g (g.radians tilt_degrees) sky)).sum := by
  show (if _ then (0:ℚ) else _) = _
  rw [ite_isEmpty_sum]
  apply sum_map_filter_of_vanish
  intro r _ hp
  have h12 : recDhi sky r = 0 ∧ recDni sky r = 0 := by
    simpa using hp
  exact ghiTerm_eq_zero_of_dark g _ sky r h12.1 h12.2

theorem optFold_succ (f : Nat → ℚ) (n : Nat) :
    optFold f (n + 1) = optStep f (optFold f n) n := by
  unfold optFold
  rw [List.range_succ, List.foldl_append, List.foldl_cons, List.foldl_nil]

theorem optFold_sentinel (f : Nat → ℚ) :
    ∀ n : Nat, (∀ t, t < n → f t ≤ -1) → optFold f n = (-1, -1) := by
  intro n
  induction n with
  | zero => intro _; rfl
  | succ n ih =>
    intro h
    rw [optFold_succ, ih (fun t ht => h t (Nat.lt_succ_of_lt ht))]
    unfold optStep
    rw [if_neg]
    exact not_lt.mpr (h n (Nat.lt_succ_self n))

theorem optFold_argmax (f : Nat → ℚ) :
    ∀ n : Nat, (∃ t, t < n ∧ -1 < f t) →
      ∃ t0, t0 < n ∧ optFold f n = ((t0 : Int), f t0) ∧
        (∀ t, t < n → f t ≤ f t0) ∧ (∀ t, t < t0 → f t < f t0) := by
  intro n
  induction n with
  | zero => rintro ⟨t, ht, _⟩; exact absurd ht (Nat.not_lt_zero t)
  | succ n ih =>
    intro hex
    by_cases hn : ∃ t, t < n ∧ -1 < f t
    · obtain ⟨t0, ht0n, heq, hmax, hfirst⟩ := ih hn
      by_cases himp : f t0 < f n
      · refine ⟨n, Nat.lt_succ_self n, ?_, ?_, ?_⟩
        · rw [optFold_succ, heq]
          unfold optStep
          simp [optStep, himp]
        · intro t ht
          rcases Nat.lt_succ_iff_lt_or_eq.mp ht with ht' | rfl
          · exact le_of_lt (lt_of_le_of_lt (hmax t ht') himp)
          · exact le_refl _
        · intro t ht
          exact lt_of_le_of_lt (hmax t ht) himp
      · refine ⟨t0, Nat.lt_succ_of_lt ht0n, ?_, ?_, hfirst⟩
        · rw [optFold_succ, heq]
          unfold optStep
          simp [optStep, himp]
        · intro t ht
          rcases Nat.lt_succ_iff_lt_or_eq.mp ht with ht' | rfl
          · exact hmax t ht'
          · exact not_lt.mp himp
    · push_neg at hn
      obtain ⟨t, ht, hft⟩ := hex
      have htn : t = n := by
        rcases Nat.lt_succ_iff_lt_or_eq.mp ht with ht' | rfl
        · exact absurd hft (not_lt.mpr (hn t ht'))
        · rfl
      subst htn
      refine ⟨t, Nat.lt_succ_self t, ?_, ?_, ?_⟩
      · rw [optFold_succ, optFold_sentinel f t hn]
        unfold optStep
        simp [optStep, hft]
      · intro u hu
        rcases Nat.lt_succ_iff_lt_or_eq.mp hu with hu' | rfl
        · exact le_trans (hn u hu') (le_of_lt hft)
        · exact le_refl _
      · intro u hu
        exact lt_of_le_of_lt (hn u hu) hft

theorem optFold_const_zero (f : Nat → ℚ) (n : Nat) (hn : 0 < n)
    (h : ∀ t, t < n → f t = 0) : optFold f n = (0, 0) := by
  obtain ⟨t0, ht0, heq, _, hfirst⟩ := optFold_argmax f n ⟨0, hn, by rw [h 0 hn]; norm_num⟩
  have ht00 : t0 = 0 := by
    by_contra hne
    have h0 : f 0 < f t0 := hfirst 0 (Nat.pos_of_ne_zero hne)
    rw [h 0 hn, h t0 ht0] at h0
    exact lt_irrefl 0 h0
  subst ht00
  rw [heq, h 0 hn]
  rfl

/-- C1: for every tilt angle, month list and sky condition, on a loaded
dataset `calculate_ghi_for_tilt` returns the sum over the records whose
month lies in the list of `diffuse + direct contribution`, where the
direct contribution is `cos(theta) * dni` when `cos(theta) > 0` and `0`
otherwise, with `theta = LATITUDE_RADIANS - radians(tilt) - declinationRad`
and the columns chosen by the sky condition. -/
theorem calculate_ghi_matches_formula (g : GeoModel) (data : List HourlyRecord)
    (tilt_degrees : ℚ) (months : List Int) (sky : String) :
    SolarAnalysis.calculate_ghi_for_tilt g ⟨some data⟩ tilt_degrees months sky =
      ((data.filter (fun r => months.contains r.month)).map
        (fun r =>
          recDhi sky r +
            (if 0 < g.cosFn (LATITUDE_RADIANS g - g.radians tilt_degrees - r.declinationRad)
             then g.cosFn (LATITUDE_RADIANS g - g.radians tilt_degrees - r.declinationRad) *
                recDni sky r
             else 0))).sum :=
  calculate_ghi_eq_sum g data tilt_degrees months sky

/-- C5: the pre-summation exclusion of records whose selected diffuse and
direct fields are both exactly zero does not change the result: the code
agrees with the variant that sums over all month-filtered records
unconditionally. -/
theorem calculate_ghi_eq_unconditional (g : GeoModel) (data : List HourlyRecord)
    (tilt_degrees : ℚ) (months : List Int) (sky : String) :
    SolarAnalysis.calculate_ghi_for_tilt g ⟨some data⟩ tilt_degrees months sky =
      calculate_ghi_unconditional g data tilt_degrees months sky :=
  calculate_ghi_eq_sum g data tilt_degrees months sky

theorem calculate_ghi_of_no_matching_month (g : GeoModel) (data : List HourlyRecord)
    (months : List Int) (sky : String) (h : ∀ r ∈ data, r.month ∉ months)
    (tilt_degrees : ℚ) :
    SolarAnalysis.calculate_ghi_for_tilt g ⟨some data⟩ tilt_degrees months sky = 0 := by
  rw [calculate_ghi_eq_sum]
  have hf : data.filter (fun r => months.contains r.month) = [] := by
    apply List.filter_eq_nil_iff.mpr
    intro r hr hc
    exact h r hr (List.elem_iff.mp hc)
  rw [hf]
  rfl

/-- C3: when the month filter selects zero qualifying records, the GHI of
every tilt is exactly `0`, and `find_optimal_tilt` returns tilt `0` with
GHI `0`. -/
theorem empty_period_contract (g : GeoModel) (data : List HourlyRecord)
    (months : List Int) (sky : String) (tilt_degrees : ℚ)
    (h : ∀ r ∈ data, r.month ∉ months) :
    SolarAnalysis.calculate_ghi_for_tilt g ⟨some data⟩ tilt_degrees months sky = 0 ∧
    SolarAnalysis.find_optimal_tilt g ⟨some data⟩ months sky = (0, 0) := by
  constructor
  · exact calculate_ghi_of_no_matching_month g data months sky h tilt_degrees
  · show optFold _ 91 = (0, 0)
    apply optFold_const_zero _ 91 (by norm_num)
    intro t _
    exact calculate_ghi_of_no_matching_month g data months sky h (t : ℚ)

/-- C2 (amended): provided some candidate tilt in `0..90` attains a GHI
strictly above the sentinel `-1` (always the case for nonnegative
irradiance data), `find_optimal_tilt` returns the smallest tilt
achieving the maximum GHI over the 91 candidates, together with that
maximum; ties keep the lowest tilt because only strict improvement
updates the incumbent. -/
theorem find_optimal_tilt_least_argmax (g : GeoModel) (self : SolarAnalysis)
    (months : List Int) (sky : String)
    (h : ∃ t : Nat, t ≤ 90 ∧
      -1 < self.calculate_ghi_for_tilt g (t : ℚ) months sky) :
    ∃ t0 : Nat, t0 ≤ 90 ∧
      self.find_optimal_tilt g months sky =
        ((t0 : Int), self.calculate_ghi_for_tilt g (t0 : ℚ) months sky) ∧
      (∀ t : Nat, t ≤ 90 →
        self.calculate_ghi_for_tilt g (t : ℚ) months sky ≤
          self.calculate_ghi_for_tilt g (t0 : ℚ) months sky) ∧
      (∀ t : Nat, t ≤ 90 →
        self.calculate_ghi_for_tilt g (t : ℚ) months sky =
          self.calculate_ghi_for_tilt g (t0 : ℚ) months sky → t0 ≤ t) := by
  obtain ⟨t, ht, hft⟩ := h
  obtain ⟨t0, ht0, heq, hmax, hfirst⟩ :=
    optFold_argmax (fun t => self.calculate_ghi_for_tilt g (t : ℚ) months sky) 91
      ⟨t, Nat.lt_succ_of_le ht, hft⟩
  refine ⟨t0, Nat.lt_succ_iff.mp ht0, heq, ?_, ?_⟩
  · intro u hu
    exact hmax u (Nat.lt_succ_of_le hu)
  · intro u _ hueq
    by_contra hlt
    have : self.calculate_ghi_for_tilt g (u : ℚ) months sky <
        self.calculate_ghi_for_tilt g (t0 : ℚ) months sky :=
      hfirst u (Nat.lt_of_not_le hlt)
    rw [hueq] at this
    exact lt_irrefl _ this

theorem calculate_ghi_analysisNeg5 (tilt_degrees : ℚ) :
    SolarAnalysis.calculate_ghi_for_tilt gZero analysisNeg5 tilt_degrees [1] "cloudy" = -5 := by
  show SolarAnalysis.calculate_ghi_for_tilt gZero ⟨some [⟨1, -5, 0, -5, 0, 0⟩]⟩
      tilt_degrees [1] "cloudy" = -5
  rw [calculate_ghi_eq_sum]
  norm_num [ghiTerm, recDhi, recDni, gZero, List.filter]

/-- C2 counterexample: on a dataset whose only January record carries
diffuse irradiance `-5`, every candidate tilt attains the maximum GHI
`-5`, so the smallest maximising tilt is `0`; but no candidate ever
beats the sentinel `-1`, so `find_optimal_tilt` returns `(-1, -1)`
instead of the smallest maximising tilt with its GHI. -/
theorem find_optimal_tilt_sentinel_counterexample :
    SolarAnalysis.find_optimal_tilt gZero analysisNeg5 [1] "cloudy" = (-1, -1) ∧
    SolarAnalysis.calculate_ghi_for_tilt gZero analysisNeg5 0 [1] "cloudy" = -5 ∧
    SolarAnalysis.find_optimal_tilt gZero analysisNeg5 [1] "cloudy" ≠
      ((0 : Int), SolarAnalysis.calculate_ghi_for_tilt gZero analysisNeg5 0 [1] "cloudy") := by
  have hfind : SolarAnalysis.find_optimal_tilt gZero analysisNeg5 [1] "cloudy" = (-1, -1) := by
    show optFold _ 91 = (-1, -1)
    apply optFold_sentinel
    intro t _
    rw [calculate_ghi_analysisNeg5]
    norm_num
  refine ⟨hfind, calculate_ghi_analysisNeg5 0, ?_⟩
  rw [hfind, calculate_ghi_analysisNeg5 0]
  intro hcontra
  have : (-1 : Int) = 0 := congrArg Prod.fst hcontra
  norm_num at this

theorem calculate_ghi_analysisNeg3 (tilt_degrees : ℚ) :
    SolarAnalysis.calculate_ghi_for_tilt gZero analysisNeg3 tilt_degrees [1] "cloudy" = -3 := by
  show SolarAnalysis.calculate_ghi_for_tilt gZero ⟨some [⟨1, -3, 0, -3, 0, 0⟩]⟩
      tilt_degrees [1] "cloudy" = -3
  rw [calculate_ghi_eq_sum]
  norm_num [ghiTerm, recDhi, recDni, gZero, List.filter]

/-- C7: on a dataset where every candidate tilt computes a GHI of `-3`,
below the code's sentinel `-1`, the incumbent is never replaced and
`find_optimal_tilt` returns tilt `-1`, escaping the search domain
`[0, 90]`: the sentinel is a magic constant, not strictly below every
attainable GHI as the spec requires. -/
theorem find_optimal_tilt_sentinel_escape :
    (SolarAnalysis.find_optimal_tilt gZero analysisNeg3 [1] "cloudy").1 = -1 ∧
    ¬(0 ≤ (SolarAnalysis.find_optimal_tilt gZero analysisNeg3 [1] "cloudy").1 ∧
      (SolarAnalysis.find_optimal_tilt gZero analysisNeg3 [1] "cloudy").1 ≤ 90) := by
  have hfind : SolarAnalysis.find_optimal_tilt gZero analysisNeg3 [1] "cloudy" = (-1, -1) := by
    show optFold _ 91 = (-1, -1)
    apply optFold_sentinel
    intro t _
    rw [calculate_ghi_analysisNeg3]
    norm_num
  rw [hfind]
  norm_num

theorem foldl_add_eq_sum (h : Nat → ℚ) :
    ∀ (l : List Nat) (c : ℚ), l.foldl (fun acc x => acc + h x) c = c + (l.map h).sum := by
  intro l
  induction l with
  | nil => intro c; simp
  | cons a l ih =>
    intro c
    simp only [List.foldl_cons, List.map_cons, List.sum_cons, ih, add_assoc]

theorem sum_filter_contains_cons (m : Int) (ms : List Int) (hm : m ∉ ms)
    (f : HourlyRecord → ℚ) :
    ∀ l : List HourlyRecord,
      ((l.filter (fun r => (m :: ms).contains r.month)).map f).sum =
        ((l.filter (fun r => [m].contains r.month)).map f).sum +
          ((l.filter (fun r => ms.contains r.month)).map f).sum := by
  intro l
  induction l with
  | nil => simp
  | cons r l ih =>
    rw [List.filter_cons, List.filter_cons, List.filter_cons]
    by_cases hr : r.month = m
    · have h1 : ((m :: ms).contains r.month) = true := by
        simp [List.contains_cons, hr]
      have h2 : (([m] : List Int).contains r.month) = true := by
        simp [List.contains_cons, hr]
      have h3 : (ms.contains r.month) = false := by
        rw [Bool.eq_false_iff]
        intro hc
        exact hm (hr ▸ List.elem_iff.mp hc)
      rw [h1, h2, h3]
      simp only [if_pos, Bool.false_eq_true, ite_false, List.map_cons, List.sum_cons, ih]
      ring
    · have hbeq : (r.month == m) = false := beq_eq_false_iff_ne.mpr hr
      have h1eq : ((m :: ms).contains r.month) = (ms.contains r.month) := by
        simp only [List.contains_cons, hbeq, Bool.false_or]
      have h2 : (([m] : List Int).contains r.month) = false := by
        simp only [List.contains_cons, hbeq, List.contains_nil, Bool.false_or]
      rw [h1eq, h2]
      by_cases hr2 : ms.contains r.month
      · rw [hr2]
        simp only [if_pos, Bool.false_eq_true, ite_false, List.map_cons, List.sum_cons, ih]
        ring
      · have hr2' : ms.contains r.month = false := by simpa using hr2
        rw [hr2']
        simp only [Bool.false_eq_true, ite_false, ih]

theorem sum_filter_contains_nodup (f : HourlyRecord → ℚ) :
    ∀ ms : List Int, ms.Nodup → ∀ l : List HourlyRecord,
      ((l.filter (fun r => ms.contains r.month)).map f).sum =
        (ms.map (fun m =>
          ((l.filter (fun r => [m].contains r.month)).map f).sum)).sum := by
  intro ms
  induction ms with
  | nil => intro _ l; simp
  | cons m ms ih =>
    intro hnd l
    have hm : m ∉ ms := (List.nodup_cons.mp hnd).1
    rw [sum_filter_contains_cons m ms hm f l, List.map_cons, List.sum_cons,
      ih (List.nodup_cons.mp hnd).2 l]

theorem calculate_ghi_allMonths_split (g : GeoModel) (data : List HourlyRecord)
    (tilt_degrees : ℚ) (sky : String) :
    SolarAnalysis.calculate_ghi_for_tilt g ⟨some data⟩ tilt_degrees allMonths sky =
      (allMonths.map (fun m =>
        SolarAnalysis.calculate_ghi_for_tilt g ⟨some data⟩ tilt_degrees [m] sky)).sum := by
  rw [calculate_ghi_eq_sum,
    sum_filter_contains_nodup (ghiTerm g (g.radians tilt_degrees) sky) allMonths
      (by decide) data]
  congr 1
  apply List.map_congr_left
  intro m _
  exact (calculate_ghi_eq_sum g data tilt_degrees [m] sky).symm

theorem ghiTerm_nonneg (g : GeoModel) (tr : ℚ) (sky : String) (r : HourlyRecord)
    (h1 : 0 ≤ recDhi sky r) (h2 : 0 ≤ recDni sky r) : 0 ≤ ghiTerm g tr sky r := by
  simp only [ghiTerm]
  apply add_nonneg h1
  by_cases hc : 0 < g.cosFn (LATITUDE_RADIANS g - tr - r.declinationRad)
  · rw [if_pos hc]
    exact mul_nonneg (le_of_lt hc) h2
  · rw [if_neg hc]

theorem calculate_ghi_nonneg (g : GeoModel) (data : List HourlyRecord)
    (tilt_degrees : ℚ) (months : List Int) (sky : String)
    (h : ∀ r ∈ data, 0 ≤ recDhi sky r ∧ 0 ≤ recDni sky r) :
    0 ≤ SolarAnalysis.calculate_ghi_for_tilt g ⟨some data⟩ tilt_degrees months sky := by
  rw [calculate_ghi_eq_sum]
  apply List.sum_nonneg
  intro x hx
  obtain ⟨r, hr, rfl⟩ := List.mem_map.mp hx
  have hrd : r ∈ data := List.mem_of_mem_filter hr
  exact ghiTerm_nonneg g _ sky r (h r hrd).1 (h r hrd).2

set_option maxRecDepth 100000 in
/-- C4 (amended): for every dataset whose selected diffuse and direct
irradiance columns are nonnegative (physical irradiance data) and every
sky condition, Arrangement 4's total annual GHI (sum of the twelve
monthly maxima) is at least Arrangement 6's total (the single annual
optimum). -/
theorem arrangement4_ge_arrangement6 (g : GeoModel) (data : List HourlyRecord)
    (sky : String) (h : ∀ r ∈ data, 0 ≤ recDhi sky r ∧ 0 ≤ recDni sky r) :
    SolarAnalysis.analyze_arrangement_6 g ⟨some data⟩ sky ≤
      SolarAnalysis.analyze_arrangement_4 g ⟨some data⟩ sky := by
  have harr4 : SolarAnalysis.analyze_arrangement_4 g ⟨some data⟩ sky =
      ((List.range' 1 12).map (fun (m : Nat) =>
        (SolarAnalysis.find_optimal_tilt g ⟨some data⟩ [(m : Int)] sky).2)).sum := by
    unfold SolarAnalysis.analyze_arrangement_4
    rw [foldl_add_eq_sum, zero_add]
  obtain ⟨T0, hT0, heq6, _, _⟩ :=
    optFold_argmax (fun t => SolarAnalysis.calculate_ghi_for_tilt g ⟨some data⟩ (t : ℚ)
        allMonths sky) 91
      ⟨0, by norm_num,
        lt_of_lt_of_le (by norm_num) (calculate_ghi_nonneg g data 0 allMonths sky h)⟩
  show (SolarAnalysis.find_optimal_tilt g ⟨some data⟩ allMonths sky).2 ≤ _
  have hfind6 : SolarAnalysis.find_optimal_tilt g ⟨some data⟩ allMonths sky =
      ((T0 : Int), SolarAnalysis.calculate_ghi_for_tilt g ⟨some data⟩ (T0 : ℚ) allMonths sky) :=
    heq6
  rw [hfind6, harr4, calculate_ghi_allMonths_split]
  unfold allMonths
  rw [List.map_map]
  simp only [Function.comp_def]
  apply List.sum_le_sum
  intro m _
  obtain ⟨t0, _, heqm, hmaxm, _⟩ :=
    optFold_argmax (fun t => SolarAnalysis.calculate_ghi_for_tilt g ⟨some data⟩ (t : ℚ)
        [(m : Int)] sky) 91
      ⟨0, by norm_num,
        lt_of_lt_of_le (by norm_num) (calculate_ghi_nonneg g data 0 [(m : Int)] sky h)⟩
  have hfindm : SolarAnalysis.find_optimal_tilt g ⟨some data⟩ [(m : Int)] sky =
      ((t0 : Int), SolarAnalysis.calculate_ghi_for_tilt g ⟨some data⟩ (t0 : ℚ) [(m : Int)] sky) :=
    heqm
  show SolarAnalysis.calculate_ghi_for_tilt g ⟨some data⟩ (T0 : ℚ) [(m : Int)] sky ≤ _
  rw [hfindm]
  exact hmaxm T0 hT0

theorem calculate_ghi_analysisNeg4_one (t : ℚ) :
    SolarAnalysis.calculate_ghi_for_tilt gZero analysisNeg4 t [1] "cloudy" = -2 := by
  show SolarAnalysis.calculate_ghi_for_tilt gZero
      ⟨some [⟨1, -2, 0, -2, 0, 0⟩, ⟨2, -2, 0, -2, 0, 0⟩]⟩ t [1] "cloudy" = -2
  rw [calculate_ghi_eq_sum]
  norm_num [ghiTerm, recDhi, recDni, gZero, List.filter]

theorem calculate_ghi_analysisNeg4_two (t : ℚ) :
    SolarAnalysis.calculate_ghi_for_tilt gZero analysisNeg4 t [2] "cloudy" = -2 := by
  show SolarAnalysis.calculate_ghi_for_tilt gZero
      ⟨some [⟨1, -2, 0, -2, 0, 0⟩, ⟨2, -2, 0, -2, 0, 0⟩]⟩ t [2] "cloudy" = -2
  rw [calculate_ghi_eq_sum]
  norm_num [ghiTerm, recDhi, recDni, gZero, List.filter]

theorem calculate_ghi_analysisNeg4_other (m : Int) (h1 : m ≠ 1) (h2 : m ≠ 2) (t : ℚ) :
    SolarAnalysis.calculate_ghi_for_tilt gZero analysisNeg4 t [m] "cloudy" = 0 := by
  show SolarAnalysis.calculate_ghi_for_tilt gZero
      ⟨some [⟨1, -2, 0, -2, 0, 0⟩, ⟨2, -2, 0, -2, 0, 0⟩]⟩ t [m] "cloudy" = 0
  rw [calculate_ghi_eq_sum]
  have e1 : (decide ((1 : Int) = m)) = false := decide_eq_false (Ne.symm h1)
  have e2 : (decide ((2 : Int) = m)) = false := decide_eq_false (Ne.symm h2)
  norm_num [List.filter, List.contains_cons, e1, e2]

theorem calculate_ghi_analysisNeg4_all (t : ℚ) :
    SolarAnalysis.calculate_ghi_for_tilt gZero analysisNeg4 t allMonths "cloudy" = -4 := by
  show SolarAnalysis.calculate_ghi_for_tilt gZero
      ⟨some [⟨1, -2, 0, -2, 0, 0⟩, ⟨2, -2, 0, -2, 0, 0⟩]⟩ t allMonths "cloudy" = -4
  rw [calculate_ghi_eq_sum]
  norm_num [ghiTerm, recDhi, recDni, gZero, List.filter, allMonths, List.range',
    List.contains_cons]

theorem find_optimal_analysisNeg4_one :
    SolarAnalysis.find_optimal_tilt gZero analysisNeg4 [1] "cloudy" = (-1, -1) := by
  show optFold _ 91 = (-1, -1)
  apply optFold_sentinel
  intro t _
  rw [calculate_ghi_analysisNeg4_one]
  norm_num

theorem find_optimal_analysisNeg4_two :
    SolarAnalysis.find_optimal_tilt gZero analysisNeg4 [2] "cloudy" = (-1, -1) := by
  show optFold _ 91 = (-1, -1)
  apply optFold_sentinel
  intro t _
  rw [calculate_ghi_analysisNeg4_two]
  norm_num

theorem find_optimal_analysisNeg4_other (m : Int) (h1 : m ≠ 1) (h2 : m ≠ 2) :
    SolarAnalysis.find_optimal_tilt gZero analysisNeg4 [m] "cloudy" = (0, 0) := by
  show optFold _ 91 = (0, 0)
  apply optFold_const_zero _ 91 (by norm_num)
  intro t _
  exact calculate_ghi_analysisNeg4_other m h1 h2 (t : ℚ)

theorem find_optimal_analysisNeg4_all :
    SolarAnalysis.find_optimal_tilt gZero analysisNeg4 allMonths "cloudy" = (-1, -1) := by
  show optFold _ 91 = (-1, -1)
  apply optFold_sentinel
  intro t _
  rw [calculate_ghi_analysisNeg4_all]
  norm_num

/-- C4 counterexample: on a dataset carrying diffuse irradiance `-2` in
January and February, each monthly search fails to beat the sentinel and
returns GHI `-1`, so Arrangement 4 totals `-2`, while the annual search
also returns the sentinel GHI `-1` as Arrangement 6's total: Arrangement
4's total is strictly below Arrangement 6's, refuting the unconditional
inequality. -/
theorem arrangement4_lt_arrangement6_counterexample :
    SolarAnalysis.analyze_arrangement_4 gZero analysisNeg4 "cloudy" = -2 ∧
    SolarAnalysis.analyze_arrangement_6 gZero analysisNeg4 "cloudy" = -1 ∧
    SolarAnalysis.analyze_arrangement_4 gZero analysisNeg4 "cloudy" <
      SolarAnalysis.analyze_arrangement_6 gZero analysisNeg4 "cloudy" := by
  have h4 : SolarAnalysis.analyze_arrangement_4 gZero analysisNeg4 "cloudy" = -2 := by
    unfold SolarAnalysis.analyze_arrangement_4
    rw [foldl_add_eq_sum, zero_add]
    have hr : List.range' 1 12 = [1, 2, 3, 4, 5, 6, 7, 8, 9, 10, 11, 12] := rfl
    rw [hr]
    simp only [List.map_cons, List.map_nil, List.sum_cons, List.sum_nil, Nat.cast_one,
      Nat.cast_ofNat, find_optimal_analysisNeg4_one, find_optimal_analysisNeg4_two,
      find_optimal_analysisNeg4_other 3 (by norm_num) (by norm_num),
      find_optimal_analysisNeg4_other 4 (by norm_num) (by norm_num),
      find_optimal_analysisNeg4_other 5 (by norm_num) (by norm_num),
      find_optimal_analysisNeg4_other 6 (by norm_num) (by norm_num),
      find_optimal_analysisNeg4_other 7 (by norm_num) (by norm_num),
      find_optimal_analysisNeg4_other 8 (by norm_num) (by norm_num),
      find_optimal_analysisNeg4_other 9 (by norm_num) (by norm_num),
      find_optimal_analysisNeg4_other 10 (by norm_num) (by norm_num),
      find_optimal_analysisNeg4_other 11 (by norm_num) (by norm_num),
      find_optimal_analysisNeg4_other 12 (by norm_num) (by norm_num)]
    norm_num
  have h6 : SolarAnalysis.analyze_arrangement_6 gZero analysisNeg4 "cloudy" = -1 := by
    unfold SolarAnalysis.analyze_arrangement_6
    rw [find_optimal_analysisNeg4_all]
  refine ⟨h4, h6, ?_⟩
  rw [h4, h6]
  norm_num

/-- C6: for a window size of at least one month, the sliding window
analyzer returns, in ascending start-month order `i = 1..12`, one
`(label, best tilt)` pair per start month, where the months optimised
over are exactly `((i + k - 1) mod 12) + 1` for `k = 0..window_size-1`
and the label joins the first and last window month's short names; in
particular the size-3 window starting at month 11 covers `[11, 12, 1]`
and is labelled `"Nov-Jan"`. -/
theorem analyze_sliding_window_spec (g : GeoModel) (self : SolarAnalysis)
    (window_size : Nat) (sky : String) (_hW : 1 ≤ window_size) :
    SolarAnalysis.analyze_sliding_window g self window_size sky =
      (List.range' 1 12).map (fun i =>
        (month_names ((windowMonths i window_size).headD 0) ++ "-" ++
           month_names ((windowMonths i window_size).getLastD 0),
         (self.find_optimal_tilt g (windowMonths i window_size) sky).1)) ∧
    windowMonths 11 3 = [11, 12, 1] ∧
    month_names ((windowMonths 11 3).headD 0) ++ "-" ++
      month_names ((windowMonths 11 3).getLastD 0) = "Nov-Jan" := by
  refine ⟨?_, by decide, by decide⟩
  unfold SolarAnalysis.analyze_sliding_window
  apply List.map_congr_left
  intro i _
  have hm : (List.range' i window_size).map
        (fun m => (((m - 1) % 12 + 1 : Nat) : Int)) = windowMonths i window_size := by
    unfold windowMonths
    rw [List.range'_eq_map_range, List.map_map]
    simp only [Function.comp_def]
  rw [hm]

/-- C8: `calculate_ghi_for_tilt` is deterministic and a pure function of
its inputs: repeated calls agree, and any two analysis states holding
the same dataset produce the same result (there is no other state the
computation could read or write). -/
theorem calculate_ghi_pure (g : GeoModel) (s1 s2 : SolarAnalysis)
    (tilt_degrees : ℚ) (months : List Int) (sky : String) (h : s1.data = s2.data) :
    s1.calculate_ghi_for_tilt g tilt_degrees months sky =
      s1.calculate_ghi_for_tilt g tilt_degrees months sky ∧
    s1.calculate_ghi_for_tilt g tilt_degrees months sky =
      s2.calculate_ghi_for_tilt g tilt_degrees months sky := by
  obtain ⟨d1⟩ := s1
  obtain ⟨d2⟩ := s2
  cases h
  exact ⟨rfl, rfl⟩

/-- C9: any sky-condition string other than exactly `"cloudy"` selects
the clear-sky column pair, so `calculate_ghi_for_tilt` behaves exactly
as with sky condition `"clear"`. -/
theorem calculate_ghi_unknown_sky_fallback (g : GeoModel) (self : SolarAnalysis)
    (tilt_degrees : ℚ) (months : List Int) (sky : String) (h : sky ≠ "cloudy") :
    self.calculate_ghi_for_tilt g tilt_degrees months sky =
      self.calculate_ghi_for_tilt g tilt_degrees months "clear" := by
  obtain ⟨d⟩ := self
  cases d with
  | none => rfl
  | some data =>
    show SolarAnalysis.calculate_ghi_for_tilt g ⟨some data⟩ _ months sky = _
    rw [calculate_ghi_eq_sum, calculate_ghi_eq_sum]
    congr 1
    apply List.map_congr_left
    intro r _
    simp [ghiTerm, recDhi, recDni, h]

/-- C10: `calculate_ghi_for_tilt` depends only on the set of months in
its month-list argument: two lists with the same members (in any order,
with any duplicates) give identical results. -/
theorem calculate_ghi_month_set_semantics (g : GeoModel) (self : SolarAnalysis)
    (tilt_degrees : ℚ) (ms1 ms2 : List Int) (sky : String)
    (h : ∀ m : Int, m ∈ ms1 ↔ m ∈ ms2) :
    self.calculate_ghi_for_tilt g tilt_degrees ms1 sky =
      self.calculate_ghi_for_tilt g tilt_degrees ms2 sky := by
  have hc : ∀ x : Int, ms1.contains x = ms2.contains x := by
    intro x
    by_cases hx : x ∈ ms2
    · have e1 : ms1.contains x = true := List.elem_iff.mpr ((h x).mpr hx)
      have e2 : ms2.contains x = true := List.elem_iff.mpr hx
      rw [e1, e2]
    · have e1 : ms1.contains x = false := by
        rw [Bool.eq_false_iff]
        exact fun hcc => hx ((h x).mp (List.elem_iff.mp hcc))
      have e2 : ms2.contains x = false := by
        rw [Bool.eq_false_iff]
        exact fun hcc => hx (List.elem_iff.mp hcc)
      rw [e1, e2]
  obtain ⟨d⟩ := self
  cases d with
  | none => rfl
  | some data =>
    show SolarAnalysis.calculate_ghi_for_tilt g ⟨some data⟩ _ ms1 sky = _
    rw [calculate_ghi_eq_sum, calculate_ghi_eq_sum,
      List.filter_congr (fun r _ => hc r.month)]

theorem calculate_ghi_nil (g : GeoModel) (tilt_degrees : ℚ) (months : List Int)
    (sky : String) :
    SolarAnalysis.calculate_ghi_for_tilt g ⟨some []⟩ tilt_degrees months sky = 0 := rfl

/-- Witness for the least-argmax theorem at a concrete input: the empty
loaded dataset, where every candidate GHI is `0 > -1`. -/
theorem find_optimal_tilt_least_argmax_witness :
    (∃ t : Nat, t ≤ 90 ∧
      -1 < SolarAnalysis.calculate_ghi_for_tilt gZero ⟨some []⟩ (t : ℚ) [] "cloudy") ∧
    (∃ t0 : Nat, t0 ≤ 90 ∧
      SolarAnalysis.find_optimal_tilt gZero ⟨some []⟩ [] "cloudy" =
        ((t0 : Int), SolarAnalysis.calculate_ghi_for_tilt gZero ⟨some []⟩ (t0 : ℚ) [] "cloudy") ∧
      (∀ t : Nat, t ≤ 90 →
        SolarAnalysis.calculate_ghi_for_tilt gZero ⟨some []⟩ (t : ℚ) [] "cloudy" ≤
          SolarAnalysis.calculate_ghi_for_tilt gZero ⟨some []⟩ (t0 : ℚ) [] "cloudy") ∧
      (∀ t : Nat, t ≤ 90 →
        SolarAnalysis.calculate_ghi_for_tilt gZero ⟨some []⟩ (t : ℚ) [] "cloudy" =
          SolarAnalysis.calculate_ghi_for_tilt gZero ⟨some []⟩ (t0 : ℚ) [] "cloudy" → t0 ≤ t)) := by
  have hhyp : ∃ t : Nat, t ≤ 90 ∧
      -1 < SolarAnalysis.calculate_ghi_for_tilt gZero ⟨some []⟩ (t : ℚ) [] "cloudy" :=
    ⟨0, by norm_num, by rw [calculate_ghi_nil]; norm_num⟩
  exact ⟨hhyp, find_optimal_tilt_least_argmax gZero ⟨some []⟩ [] "cloudy" hhyp⟩

/-- Witness for the empty-period contract at the impossible month set
`[13]` on a dataset holding one January record. -/
theorem empty_period_contract_witness :
    SolarAnalysis.calculate_ghi_for_tilt gZero ⟨some [⟨1, 5, 5, 5, 5, 0⟩]⟩ 7 [13] "cloudy" = 0 ∧
    SolarAnalysis.find_optimal_tilt gZero ⟨some [⟨1, 5, 5, 5, 5, 0⟩]⟩ [13] "cloudy" = (0, 0) :=
  empty_period_contract gZero [⟨1, 5, 5, 5, 5, 0⟩] [13] "cloudy" 7 (by decide)

/-- Witness for the arrangement comparison on a concrete nonnegative
dataset (the empty one). -/
theorem arrangement4_ge_arrangement6_witness :
    SolarAnalysis.analyze_arrangement_6 gZero ⟨some []⟩ "cloudy" ≤
      SolarAnalysis.analyze_arrangement_4 gZero ⟨some []⟩ "cloudy" :=
  arrangement4_ge_arrangement6 gZero [] "cloudy" (by simp)

/-- Witness for the sliding-window characterisation at window size 3. -/
theorem analyze_sliding_window_spec_witness :
    SolarAnalysis.analyze_sliding_window gZero ⟨none⟩ 3 "cloudy" =
      (List.range' 1 12).map (fun i =>
        (month_names ((windowMonths i 3).headD 0) ++ "-" ++
           month_names ((windowMonths i 3).getLastD 0),
         (SolarAnalysis.find_optimal_tilt gZero ⟨none⟩ (windowMonths i 3) "cloudy").1)) ∧
    windowMonths 11 3 = [11, 12, 1] ∧
    month_names ((windowMonths 11 3).headD 0) ++ "-" ++
      month_names ((windowMonths 11 3).getLastD 0) = "Nov-Jan" :=
  analyze_sliding_window_spec gZero ⟨none⟩ 3 "cloudy" (by norm_num)

/-- Witness for purity at a concrete state. -/
theorem calculate_ghi_pure_witness :
    SolarAnalysis.calculate_ghi_for_tilt gZero ⟨some [⟨1, 5, 5, 5, 5, 0⟩]⟩ 30 [1] "cloudy" =
      SolarAnalysis.calculate_ghi_for_tilt gZero ⟨some [⟨1, 5, 5, 5, 5, 0⟩]⟩ 30 [1] "cloudy" ∧
    SolarAnalysis.calculate_ghi_for_tilt gZero ⟨some [⟨1, 5, 5, 5, 5, 0⟩]⟩ 30 [1] "cloudy" =
      SolarAnalysis.calculate_ghi_for_tilt gZero ⟨some [⟨1, 5, 5, 5, 5, 0⟩]⟩ 30 [1] "cloudy" :=
  calculate_ghi_pure gZero ⟨some [⟨1, 5, 5, 5, 5, 0⟩]⟩ ⟨some [⟨1, 5, 5, 5, 5, 0⟩]⟩
    30 [1] "cloudy" rfl

/-- Witness for the unknown-sky fallback at the misspelt condition
`"sunny"`. -/
theorem calculate_ghi_unknown_sky_fallback_witness :
    SolarAnalysis.calculate_ghi_for_tilt gZero ⟨some [⟨1, 5, 5, 5, 5, 0⟩]⟩ 0 [1] "sunny" =
      SolarAnalysis.calculate_ghi_for_tilt gZero ⟨some [⟨1, 5, 5, 5, 5, 0⟩]⟩ 0 [1] "clear" :=
  calculate_ghi_unknown_sky_fallback gZero ⟨some [⟨1, 5, 5, 5, 5, 0⟩]⟩ 0 [1] "sunny"
    (by decide)

/-- Witness for month-set semantics: `[2, 1, 1]` and `[1, 2]` hold the
same months. -/
theorem calculate_ghi_month_set_semantics_witness :
    SolarAnalysis.calculate_ghi_for_tilt gZero ⟨some [⟨1, 5, 0, 5, 0, 0⟩]⟩ 0 [2, 1, 1] "cloudy" =
      SolarAnalysis.calculate_ghi_for_tilt gZero ⟨some [⟨1, 5, 0, 5, 0, 0⟩]⟩ 0 [1, 2] "cloudy" :=
  calculate_ghi_month_set_semantics gZero ⟨some [⟨1, 5, 0, 5, 0, 0⟩]⟩ 0 [2, 1, 1] [1, 2]
    "cloudy" (by intro m; simp [List.mem_cons]; tauto)

end HelioStat
